import Mathlib

/-!
Verification of the AI Email Generator (src/app.py) against its
natural-language specification.

The script is a single Streamlit page: it loads an API credential at
startup (halting the script when none is found), renders a fixed prompt
template from five form fields, calls the Gemini model once inside a
try/except, and displays whatever string comes back in a plain text area
behind an unconditional success banner.

The embedding below models the script's pure decision logic.  The one
effectful step — the outbound `model.generate_content(prompt)` call at
src/app.py:79 — is abstracted by a `ModelOutcome` parameter recording
whether that single call returned text or raised an exception; everything
downstream of it is translated literally from the source.
-/

namespace EmailGen

/-- Result of the single `model.generate_content(prompt)` call
(src/app.py:79): either the response's text, or the message of the
exception the call raised. -/
inductive ModelOutcome where
  | ok (text : String)
  | exc (msg : String)
deriving DecidableEq, Repr

/-- The five user-supplied values collected by the form
(src/app.py:95-108): four free-text inputs and the tone chosen from a
selectbox. -/
structure Fields where
  recipient_name : String
  sender_name : String
  purpose : String
  tone : String
  key_points : String
deriving DecidableEq, Repr

/-- Literal template text of the f-string prompt (src/app.py:61-76),
up to the `recipient_name` interpolation. -/
def lit0 : String :=
  "\n    As an expert email writing assistant, your task is to craft a professional and effective email.\n\n    **Instructions:**\n    1.  Create a clear, relevant, and compelling subject line. Do not use placeholders like \"[Subject]\".\n    2.  The email must be addressed to `"

/-- Template text between `recipient_name` and `sender_name`. -/
def lit1 : String := "` and signed by `"

/-- Template text between `sender_name` and `tone`. -/
def lit2 : String := "`.\n    3.  The tone of the email must be `"

/-- Template text between `tone` and `purpose`. -/
def lit3 : String := "`.\n    4.  The core purpose is: \""

/-- Template text between `purpose` and `key_points`. -/
def lit4 : String :=
  "\".\n    5.  You must seamlessly integrate the following key points into the email body:\n        ```\n        "

/-- Template text after `key_points`, to the end of the f-string. -/
def lit5 : String :=
  "\n        ```\n    6.  Ensure the final output is only the email itself (Subject, Body, Closing), with no extra commentary or notes.\n\n    **GENERATE THE EMAIL NOW**\n    "

/-- The rendered prompt (src/app.py:61-76): literal template text with
each field value interpolated at its single placeholder occurrence, in
source order recipient, sender, tone, purpose, key_points. -/
def prompt (f : Fields) : String :=
  lit0 ++ f.recipient_name ++ lit1 ++ f.sender_name ++ lit2 ++ f.tone ++
    lit3 ++ f.purpose ++ lit4 ++ f.key_points ++ lit5

/-- `generate_email` (src/app.py:56-82), instrumented with the number of
outbound `model.generate_content` calls it performs.  The body renders
the prompt, then executes exactly one `model.generate_content(prompt)`
call inside `try`; on success it returns `response.text`, and the
catch-all `except Exception as e` returns the f-string
`"An error occurred while generating the email: {e}"`.  Both paths make
exactly one outbound call; there is no retry loop. -/
def generate_email_traced (f : Fields) (o : ModelOutcome) : String × Nat :=
  let _rendered := prompt f
  match o with
  | .ok t => (t, 1)
  | .exc e => ("An error occurred while generating the email: " ++ e, 1)

/-- The string value returned by `generate_email` (src/app.py:78-82). -/
def generate_email (f : Fields) (o : ModelOutcome) : String :=
  (generate_email_traced f o).1

/-- Python string truthiness, as used by
`all([sender_name, recipient_name, purpose, key_points])`
(src/app.py:117): a string is truthy iff it is non-empty. -/
def truthy (s : String) : Bool := !s.isEmpty

/-- The submit-time validation check (src/app.py:117):
`all([sender_name, recipient_name, purpose, key_points])`.  Note that
`tone` is not checked and that no whitespace trimming is performed. -/
def fieldsValid (f : Fields) : Bool :=
  truthy f.sender_name && truthy f.recipient_name &&
    truthy f.purpose && truthy f.key_points

/-- What the page shows after a submission (src/app.py:115-126): either
the warning of the validation branch, or the success banner together
with the string placed in the output text area. -/
inductive Display where
  | warning (msg : String)
  | draft (banner : String) (text : String)
deriving DecidableEq, Repr

/-- Outcome of one submission: what is displayed, and how many outbound
model calls were made while handling it. -/
structure SubmitResult where
  display : Display
  clientCalls : Nat
deriving DecidableEq, Repr

/-- The submit handler (src/app.py:115-126).  If any of the four checked
fields is falsy, a warning is shown and `generate_email` is never
called; otherwise `generate_email` is invoked, `st.success("Email
Generated Successfully!")` is shown unconditionally, and the returned
string is placed verbatim in the `st.text_area` output widget. -/
def handle_submit (f : Fields) (o : ModelOutcome) : SubmitResult :=
  if fieldsValid f then
    { display := .draft "Email Generated Successfully!"
        (generate_email_traced f o).1
      clientCalls := (generate_email_traced f o).2 }
  else
    { display := .warning "Please fill in all the fields before generating."
      clientCalls := 0 }

/-- Result of looking up the credential in `st.secrets`
(src/app.py:33): either the stored value, or the `KeyError` /
`FileNotFoundError` that the `except` clause catches. -/
inductive SecretsLookup where
  | found (key : String)
  | keyError
deriving DecidableEq, Repr

/-- Outcome of `load_api_key` (src/app.py:30-47): either the process is
configured with a credential, or `st.stop()` halted the script. -/
inductive Startup where
  | configured (key : String)
  | stopped
deriving DecidableEq, Repr

/-- `load_api_key` (src/app.py:30-47).  It first tries
`st.secrets[...]`; on `KeyError`/`FileNotFoundError` it falls back to
`os.getenv(...)` after `load_dotenv()`, where `envKey = none` models an
absent variable.  `if not api_key:` treats both `None` and the empty
string as missing and calls `st.stop()`. -/
def load_api_key (secrets : SecretsLookup) (envKey : Option String) :
    Startup :=
  match secrets with
  | .found k => .configured k
  | .keyError =>
    match envKey with
    | none => .stopped
    | some k => if k.isEmpty then .stopped else .configured k

/-- One run of the script (src/app.py top level): `load_api_key()` is
executed at line 49, before the form is even built (line 90), so a
submission can be handled only when startup configured a credential. -/
inductive AppRun where
  | haltedAtStartup
  | ran (result : Option SubmitResult)
deriving DecidableEq, Repr

/-- Top-level script behaviour: startup, then (when not halted) the
optional form submission of this run. -/
def app_run (secrets : SecretsLookup) (envKey : Option String)
    (submission : Option (Fields × ModelOutcome)) : AppRun :=
  match load_api_key secrets envKey with
  | .stopped => .haltedAtStartup
  | .configured _ =>
    .ran (submission.map (fun p => handle_submit p.1 p.2))

/-- A sample set of filled-in form fields, used for concrete witnesses. -/
def exampleFields : Fields :=
  { recipient_name := "Dr. Maria Garcia"
    sender_name := "Alex Johnson"
    purpose := "Request for a recommendation letter"
    tone := "Formal"
    key_points := "- Applying for the Master program" }

end EmailGen

namespace EmailGen

/-- Whitespace-only `key_points`, truthy in Python since the string is
non-empty (src/app.py:117). -/
def wsFields : Fields := { exampleFields with key_points := "   " }

/-- Claim C1 (counterexample): `generate_email` does not resolve failures
to a tagged `GenerationResult.Failed` value — its failure value is a plain
string of the same type as success output, so a raised exception with
message "boom" produces exactly the same return value as a successful
generation whose text happens to be the error sentence.  Failure is not a
distinguishable `Failed` value. -/
theorem C1_counterexample :
    generate_email exampleFields
        (ModelOutcome.exc "boom")
      = generate_email exampleFields
        (ModelOutcome.ok "An error occurred while generating the email: boom") := rfl

/-- Claim C1 (amended): for every prompt, `generate_email` returns
normally — the catch-all `except Exception` (src/app.py:81) converts any
raised exception into the string
`"An error occurred while generating the email: " ++ e` — but that value
is a plain string, equal to the success output on the same text, not a
tagged Failed value. -/
theorem C1_thm (f : Fields) (e : String) :
    generate_email f (ModelOutcome.exc e)
        = "An error occurred while generating the email: " ++ e ∧
      generate_email f (ModelOutcome.exc e)
        = generate_email f
          (ModelOutcome.ok ("An error occurred while generating the email: " ++ e)) :=
  ⟨rfl, rfl⟩

/-- Claim C2 (counterexample): on a transient failure (a timeout-style
exception), `generate_email` makes exactly one outbound call — not the
three (one initial plus two retries) the retry policy requires — and
returns the error string immediately with no classification. -/
theorem C2_counterexample :
    (generate_email_traced exampleFields
        (ModelOutcome.exc "504 Deadline Exceeded")).2 = 1 ∧
      (1 : Nat) ≠ 1 + 2 := by
  exact ⟨rfl, by decide⟩

/-- Claim C2 (amended): `generate_email` performs exactly one outbound
`model.generate_content` call per invocation, for every outcome; there is
no retry loop, no backoff, and no error classification (src/app.py:78-82). -/
theorem C2_thm (f : Fields) (o : ModelOutcome) :
    (generate_email_traced f o).2 = 1 := by
  cases o <;> rfl

/-- Claim C3 (counterexample): a whitespace-only `key_points` value is
blank after trimming, yet it passes the submit-time validation check,
because `all([...])` tests Python truthiness of the raw strings and a
whitespace-only string is non-empty, hence truthy (src/app.py:117). -/
theorem C3_counterexample :
    ("   " : String) ≠ "" ∧
      ("   " : String).data.all (fun c => c.isWhitespace) = true ∧
      fieldsValid wsFields = true := by
  refine ⟨by decide, by decide, rfl⟩

/-- Claim C3 (amended): validation judges a field blank only when it is
the empty string — no whitespace trimming is performed — so a submission
fails validation exactly when one of the four checked fields is the empty
string, and whitespace-only fields pass. -/
theorem C3_thm (f : Fields) :
    fieldsValid f = false ↔
      (f.sender_name = "" ∨ f.recipient_name = "" ∨
        f.purpose = "" ∨ f.key_points = "") := by
  cases h1 : f.sender_name.isEmpty <;> cases h2 : f.recipient_name.isEmpty <;>
    cases h3 : f.purpose.isEmpty <;> cases h4 : f.key_points.isEmpty <;>
      simp [fieldsValid, truthy, h1, h2, h3, h4, ← String.isEmpty_iff]

end EmailGen

namespace EmailGen

/-- Claim C4 (counterexample): after a generation failure the user is not
shown a generic unavailability message — the underlying exception text
("503 Service Unavailable from provider") is embedded verbatim in the
displayed draft, behind the success banner (src/app.py:82,122,126). -/
theorem C4_counterexample :
    (handle_submit exampleFields
        (ModelOutcome.exc "503 Service Unavailable from provider")).display
      = Display.draft "Email Generated Successfully!"
          "An error occurred while generating the email: 503 Service Unavailable from provider" :=
  rfl

/-- Claim C4 (amended): when the single generation call fails, the value
displayed to the user embeds the underlying exception text verbatim
(prefixed by "An error occurred while generating the email: "); internal
provider details do reach the end user, and there is no generic
unavailability message. -/
theorem C4_thm (f : Fields) (e : String) (h : fieldsValid f = true) :
    (handle_submit f (ModelOutcome.exc e)).display
      = Display.draft "Email Generated Successfully!"
          ("An error occurred while generating the email: " ++ e) := by
  simp [handle_submit, h, generate_email_traced]

/-- Claim C4 witness: the amended statement at concrete input. -/
theorem C4_witness :
    (handle_submit exampleFields (ModelOutcome.exc "boom")).display
      = Display.draft "Email Generated Successfully!"
          ("An error occurred while generating the email: " ++ "boom") :=
  C4_thm exampleFields "boom" rfl

/-- Claim C5 (counterexample): no sanitizer runs on the output path — a
model string containing a script tag is handed to the output widget with
the script tag intact, not stripped (src/app.py:126). -/
theorem C5_counterexample :
    (handle_submit exampleFields
        (ModelOutcome.ok "<script>alert(1)</script>")).display
      = Display.draft "Email Generated Successfully!" "<script>alert(1)</script>" :=
  rfl

/-- Claim C5 (amended): the app has no markup output mode and applies no
sanitizer: every model-produced string is passed unmodified to the
plain-text `st.text_area` widget, which renders it as inert text, never
as live markup — so script tags, event-handler attributes and
javascript-scheme links survive in the displayed string unchanged. -/
theorem C5_thm (f : Fields) (s : String) (h : fieldsValid f = true) :
    (handle_submit f (ModelOutcome.ok s)).display
      = Display.draft "Email Generated Successfully!" s := by
  simp [handle_submit, h, generate_email_traced]

/-- Claim C5 witness: the amended statement at concrete input. -/
theorem C5_witness :
    (handle_submit exampleFields
        (ModelOutcome.ok "<a href=\"javascript:alert(1)\">x</a>")).display
      = Display.draft "Email Generated Successfully!"
          "<a href=\"javascript:alert(1)\">x</a>" :=
  C5_thm exampleFields "<a href=\"javascript:alert(1)\">x</a>" rfl

/-- A submission whose `key_points` field is the empty string, failing
the truthiness validation (src/app.py:117). -/
def blankKeyPointsFields : Fields := { exampleFields with key_points := "" }

/-- Claim C6: for every submission that fails validation, the handler
shows the validation warning and the generation client is never invoked
(outbound call count is 0), for every possible model outcome
(src/app.py:115-121). -/
theorem C6_thm (f : Fields) (o : ModelOutcome) (h : fieldsValid f = false) :
    (handle_submit f o).clientCalls = 0 ∧
      (handle_submit f o).display
        = Display.warning "Please fill in all the fields before generating." := by
  simp [handle_submit, h]

/-- Claim C6 witness: the statement at a concrete failing submission
(blank `key_points`). -/
theorem C6_witness :
    (handle_submit blankKeyPointsFields (ModelOutcome.ok "text")).clientCalls = 0 ∧
      (handle_submit blankKeyPointsFields (ModelOutcome.ok "text")).display
        = Display.warning "Please fill in all the fields before generating." :=
  C6_thm blankKeyPointsFields (ModelOutcome.ok "text") rfl

/-- Claim C7: display is the identity on the generated string — the
submit handler places exactly `generate_email`'s return value in the
output text area, and for a successful call that value is exactly the
client's response text, so the string returned by the generation client
reaches the user unmodified (plain-text passthrough, src/app.py:121,126). -/
theorem C7_thm (f : Fields) (o : ModelOutcome) (h : fieldsValid f = true) :
    (handle_submit f o).display
      = Display.draft "Email Generated Successfully!" (generate_email f o) ∧
      ∀ t, generate_email f (ModelOutcome.ok t) = t := by
  refine ⟨by simp [handle_submit, h, generate_email], fun t => rfl⟩

/-- Claim C7 witness: the statement at concrete input. -/
theorem C7_witness :
    (handle_submit exampleFields (ModelOutcome.ok "Subject: Hello")).display
      = Display.draft "Email Generated Successfully!"
          (generate_email exampleFields (ModelOutcome.ok "Subject: Hello")) ∧
      generate_email exampleFields (ModelOutcome.ok "Subject: Hello") = "Subject: Hello" :=
  ⟨(C7_thm exampleFields (ModelOutcome.ok "Subject: Hello") rfl).1,
    (C7_thm exampleFields (ModelOutcome.ok "Subject: Hello") rfl).2 "Subject: Hello"⟩

end EmailGen

namespace EmailGen

/-- Cancellation of a shared prefix and suffix around a string: the
middle segments of two equal concatenations are equal. -/
theorem append_mid_cancel (p s : String) {a b : String}
    (h : p ++ (a ++ s) = p ++ (b ++ s)) : a = b := by
  have hd : p.data ++ (a.data ++ s.data) = p.data ++ (b.data ++ s.data) := by
    have hc := congrArg String.data h
    simpa [String.data_append] using hc
  have hab : a.data = b.data :=
    List.append_cancel_right (List.append_cancel_left hd)
  ext1
  exact hab

/-- Claim C8: prompt rendering is literal substitution.  Each field value
occupies exactly one region of the rendered prompt: for every field,
updating that field yields a prompt of the form `P ++ (u ++ S)` where the
prefix `P` and suffix `S` consist only of template-literal text and the
other fields' values, independent of `u` — so changing one field changes
only its own substituted region and leaves the template-literal text
identical.  Moreover substitution is injective in each field: distinct
values for any single field yield distinct prompts. -/
theorem C8_thm (f : Fields) (v w : String) (h : v ≠ w) :
    (∀ u, prompt { f with recipient_name := u }
      = lit0 ++ (u ++ (lit1 ++ f.sender_name ++ lit2 ++ f.tone ++ lit3 ++
          f.purpose ++ lit4 ++ f.key_points ++ lit5))) ∧
    (∀ u, prompt { f with sender_name := u }
      = (lit0 ++ f.recipient_name ++ lit1) ++ (u ++ (lit2 ++ f.tone ++ lit3 ++
          f.purpose ++ lit4 ++ f.key_points ++ lit5))) ∧
    (∀ u, prompt { f with tone := u }
      = (lit0 ++ f.recipient_name ++ lit1 ++ f.sender_name ++ lit2) ++
          (u ++ (lit3 ++ f.purpose ++ lit4 ++ f.key_points ++ lit5))) ∧
    (∀ u, prompt { f with purpose := u }
      = (lit0 ++ f.recipient_name ++ lit1 ++ f.sender_name ++ lit2 ++ f.tone ++
          lit3) ++ (u ++ (lit4 ++ f.key_points ++ lit5))) ∧
    (∀ u, prompt { f with key_points := u }
      = (lit0 ++ f.recipient_name ++ lit1 ++ f.sender_name ++ lit2 ++ f.tone ++
          lit3 ++ f.purpose ++ lit4) ++ (u ++ lit5)) ∧
    prompt { f with recipient_name := v } ≠ prompt { f with recipient_name := w } ∧
    prompt { f with sender_name := v } ≠ prompt { f with sender_name := w } ∧
    prompt { f with tone := v } ≠ prompt { f with tone := w } ∧
    prompt { f with purpose := v } ≠ prompt { f with purpose := w } ∧
    prompt { f with key_points := v } ≠ prompt { f with key_points := w } := by
  have d1 : ∀ u, prompt { f with recipient_name := u }
      = lit0 ++ (u ++ (lit1 ++ f.sender_name ++ lit2 ++ f.tone ++ lit3 ++
          f.purpose ++ lit4 ++ f.key_points ++ lit5)) := by
    intro u; simp [prompt, String.append_assoc]
  have d2 : ∀ u, prompt { f with sender_name := u }
      = (lit0 ++ f.recipient_name ++ lit1) ++ (u ++ (lit2 ++ f.tone ++ lit3 ++
          f.purpose ++ lit4 ++ f.key_points ++ lit5)) := by
    intro u; simp [prompt, String.append_assoc]
  have d3 : ∀ u, prompt { f with tone := u }
      = (lit0 ++ f.recipient_name ++ lit1 ++ f.sender_name ++ lit2) ++
          (u ++ (lit3 ++ f.purpose ++ lit4 ++ f.key_points ++ lit5)) := by
    intro u; simp [prompt, String.append_assoc]
  have d4 : ∀ u, prompt { f with purpose := u }
      = (lit0 ++ f.recipient_name ++ lit1 ++ f.sender_name ++ lit2 ++ f.tone ++
          lit3) ++ (u ++ (lit4 ++ f.key_points ++ lit5)) := by
    intro u; simp [prompt, String.append_assoc]
  have d5 : ∀ u, prompt { f with key_points := u }
      = (lit0 ++ f.recipient_name ++ lit1 ++ f.sender_name ++ lit2 ++ f.tone ++
          lit3 ++ f.purpose ++ lit4) ++ (u ++ lit5) := by
    intro u; simp [prompt, String.append_assoc]
  refine ⟨d1, d2, d3, d4, d5, ?_, ?_, ?_, ?_, ?_⟩
  · intro heq; rw [d1 v, d1 w] at heq; exact h (append_mid_cancel _ _ heq)
  · intro heq; rw [d2 v, d2 w] at heq; exact h (append_mid_cancel _ _ heq)
  · intro heq; rw [d3 v, d3 w] at heq; exact h (append_mid_cancel _ _ heq)
  · intro heq; rw [d4 v, d4 w] at heq; exact h (append_mid_cancel _ _ heq)
  · intro heq; rw [d5 v, d5 w] at heq; exact h (append_mid_cancel _ _ heq)

/-- Claim C8 witness: the statement at concrete input, specialised to the
recipient-name injectivity conjunct. -/
theorem C8_witness :
    prompt { exampleFields with recipient_name := "Alice" }
      ≠ prompt { exampleFields with recipient_name := "Bob" } :=
  (C8_thm exampleFields "Alice" "Bob" (by decide)).2.2.2.2.2.1

/-- Claim C9: when no credential is available — the `st.secrets` lookup
raises and the environment variable is absent or empty — `load_api_key`
reaches `st.stop()`, so the script halts at startup (line 49) before the
form even exists (line 90), and no submission is processed, whatever it
would have been. -/
theorem C9_thm (envKey : Option String)
    (sub : Option (Fields × ModelOutcome))
    (h : envKey = none ∨ envKey = some "") :
    load_api_key SecretsLookup.keyError envKey = Startup.stopped ∧
      app_run SecretsLookup.keyError envKey sub = AppRun.haltedAtStartup := by
  rcases h with h | h <;> subst h <;> exact ⟨rfl, rfl⟩

/-- Claim C9 witness: the statement at concrete input (no environment
variable, a pending valid submission that is nevertheless not processed). -/
theorem C9_witness :
    load_api_key SecretsLookup.keyError none = Startup.stopped ∧
      app_run SecretsLookup.keyError none
          (some (exampleFields, ModelOutcome.ok "text")) = AppRun.haltedAtStartup :=
  C9_thm none (some (exampleFields, ModelOutcome.ok "text")) (Or.inl rfl)

/-- Claim C10: for every submission passing the emptiness check, the
handler displays the success banner "Email Generated Successfully!"
unconditionally — also when the generation call raised and
`generate_email` returned an error message — and a failed generation is
indistinguishable at the interface from a successful one whose text is
that same error sentence (src/app.py:119-126). -/
theorem C10_thm (f : Fields) (o : ModelOutcome) (h : fieldsValid f = true) :
    (∃ text, (handle_submit f o).display
        = Display.draft "Email Generated Successfully!" text) ∧
      ∀ e, handle_submit f (ModelOutcome.exc e)
        = handle_submit f
            (ModelOutcome.ok ("An error occurred while generating the email: " ++ e)) := by
  refine ⟨⟨generate_email f o, by simp [handle_submit, h, generate_email]⟩, fun e => rfl⟩

/-- Claim C10 witness: the statement at concrete input. -/
theorem C10_witness :
    (∃ text, (handle_submit exampleFields (ModelOutcome.exc "quota exceeded")).display
        = Display.draft "Email Generated Successfully!" text) ∧
      handle_submit exampleFields (ModelOutcome.exc "quota exceeded")
        = handle_submit exampleFields
            (ModelOutcome.ok ("An error occurred while generating the email: " ++ "quota exceeded")) :=
  ⟨(C10_thm exampleFields (ModelOutcome.exc "quota exceeded") rfl).1,
    (C10_thm exampleFields (ModelOutcome.exc "quota exceeded") rfl).2 "quota exceeded"⟩

end EmailGen
